import Mathlib

/-!
Verification development for the `seya` scraper service
(`chat-assistant/backend/scraper-service/app`).

Shallow embedding conventions:
* Raw bytes are modelled as `List Nat` (one entry per byte value).
* Header maps (Python `dict(resp.headers)`) are association lists
  `List (String × String)`; lookup mirrors Python `dict.get`, which is
  case-sensitive on the key.
* Machine floats of the backoff helper are modelled as rationals `ℚ`.
* Exceptions are modelled explicitly: functions that may raise return
  `Except`-like sums, and effect-producing code returns an ordered trace
  of the externally visible effects (uploads, DB upserts, Kafka sends).
-/

namespace Seya

/-! ## Byte-level helpers (fetcher.py, SPA detection, lines 210-234)

The three regexes `_SCRIPTS_RE`, `_APP_ROOT_RE`, `_REACT_DATA_RE` are byte
regexes compiled with `re.I`, i.e. ASCII case folding.  They are literal
alternations (plus one `\b` word boundary), so we embed them directly as
substring searches over byte lists. -/

/-- ASCII lower-casing of one byte, the case folding used by `re.I` on
byte patterns. -/
def lowerByte (b : Nat) : Nat :=
  if 65 ≤ b ∧ b ≤ 90 then b + 32 else b

/-- Byte list of an ASCII string literal (used to transcribe the Python
byte-pattern literals). -/
def bytesOfAscii (s : String) : List Nat :=
  s.toList.map Char.toNat

/-- Case-insensitive (ASCII) test that `pat` occurs at the head of `t`. -/
def startsWithCI : List Nat → List Nat → Bool
  | [], _ => true
  | _ :: _, [] => false
  | p :: ps, b :: bs => (lowerByte p == lowerByte b) && startsWithCI ps bs

/-- Case-insensitive (ASCII) substring search: `pat` occurs somewhere in `t`. -/
def containsCI (pat : List Nat) : List Nat → Bool
  | [] => startsWithCI pat []
  | t@(_ :: rest) => startsWithCI pat t || containsCI pat rest

/-- Word bytes for the `\b` boundary of the byte regex `<script\b`:
`[a-zA-Z0-9_]`. -/
def isWordByte (b : Nat) : Bool :=
  (48 ≤ b && b ≤ 57) || (65 ≤ b && b ≤ 90) || (97 ≤ b && b ≤ 122) || b == 95

/-- Quote byte accepted by `_APP_ROOT_RE`'s character class `["\']`:
double quote (34) or single quote (39). -/
def isQuoteByte (b : Nat) : Bool :=
  b == 34 || b == 39

/-- Head of a byte list is a quote byte (closing quote of `_APP_ROOT_RE`). -/
def headIsQuote : List Nat → Bool
  | [] => false
  | b :: _ => isQuoteByte b

/-- One match position of `_SCRIPTS_RE = rb"<script\b"` (case-insensitive
literal `<script` followed by a non-word byte or end of input). -/
def scriptTagHere (t : List Nat) : Bool :=
  startsWithCI (bytesOfAscii "<script") t &&
    (match t.drop 7 with
      | [] => true
      | b :: _ => !isWordByte b)

/-- Number of matches of `_SCRIPTS_RE.findall`: matches of the 7-byte
literal cannot overlap, so counting all match positions equals counting
the non-overlapping matches `findall` returns. -/
def countScriptTags : List Nat → Nat
  | [] => 0
  | t@(_ :: rest) => (if scriptTagHere t then 1 else 0) + countScriptTags rest

/-- One match position of
`_APP_ROOT_RE = rb'id=["\'](?:app|root|__next)["\']'` (case-insensitive;
note the two quotes are independent character classes, they need not
match each other). -/
def appRootHere (t : List Nat) : Bool :=
  startsWithCI (bytesOfAscii "id=") t &&
    (match t.drop 3 with
      | [] => false
      | q :: rest =>
          isQuoteByte q &&
            ((startsWithCI (bytesOfAscii "app") rest && headIsQuote (rest.drop 3)) ||
             (startsWithCI (bytesOfAscii "root") rest && headIsQuote (rest.drop 4)) ||
             (startsWithCI (bytesOfAscii "__next") rest && headIsQuote (rest.drop 6))))

/-- Search of `_APP_ROOT_RE` anywhere in the byte list. -/
def appRootSearch : List Nat → Bool
  | [] => false
  | t@(_ :: rest) => appRootHere t || appRootSearch rest

/-- Search of `_REACT_DATA_RE =
rb"data-reactroot|window\.__INITIAL_STATE__|window\.__PRELOADED_STATE__"`. -/
def reactDataSearch (t : List Nat) : Bool :=
  containsCI (bytesOfAscii "data-reactroot") t ||
  containsCI (bytesOfAscii "window.__INITIAL_STATE__") t ||
  containsCI (bytesOfAscii "window.__PRELOADED_STATE__") t

/-- Python `dict.get(key, "")` on the header map: case-sensitive key
lookup, default empty string. -/
def headersGet (headers : List (String × String)) (key : String) : String :=
  match headers.find? (fun kv => kv.1 == key) with
  | some kv => kv.2
  | none => ""

/-- ASCII case-insensitive string equality (used for header names). -/
def strEqCI (a b : String) : Bool :=
  a.toList.map (fun c => lowerByte c.toNat) == b.toList.map (fun c => lowerByte c.toNat)

/-- Case-insensitive header lookup (HTTP semantics for header names);
used only by the spec-worded classifier predicate, not by the code model. -/
def headersGetCI (headers : List (String × String)) (key : String) : String :=
  match headers.find? (fun kv => strEqCI kv.1 key) with
  | some kv => kv.2
  | none => ""

/-- Character-exact substring search over char lists (Python `in` on `str`
is case-sensitive). -/
def startsWithChars : List Char → List Char → Bool
  | [], _ => true
  | _ :: _, [] => false
  | p :: ps, c :: cs => (p == c) && startsWithChars ps cs

/-- Case-sensitive substring containment over char lists. -/
def containsChars (pat : List Char) : List Char → Bool
  | [] => startsWithChars pat []
  | t@(_ :: rest) => startsWithChars pat t || containsChars pat rest

/-- Python `pat in s` for strings (case-sensitive). -/
def strIn (pat s : String) : Bool :=
  containsChars pat.toList s.toList

/-- Direct embedding of `detect_spa_bytes(html_bytes, headers)`
(fetcher.py lines 216-234): the heuristic SPA classifier over the raw
byte prefix and the response-header dict. -/
def detect_spa_bytes (text : List Nat) (headers : List (String × String)) : Bool :=
  if appRootSearch text then true
  else
    let nScripts := countScriptTags text
    if nScripts ≥ 3 && text.length < 8000 then true
    else if reactDataSearch text then true
    else
      let ct := headersGet headers "content-type"
      if strIn "text/html" ct && nScripts ≥ 1 && text.length < 2000 then true
      else false

/-- Classifier predicate transcribed from the SPEC's words (spec.md §4.2 /
claim C4): the Content-Type condition reads the HTTP `Content-Type`
header, which by HTTP semantics is a case-insensitive header-name lookup. -/
def detectSpaSpec (text : List Nat) (headers : List (String × String)) : Bool :=
  appRootSearch text ||
  reactDataSearch text ||
  (countScriptTags text ≥ 3 && text.length < 8000) ||
  (strIn "text/html" (headersGetCI headers "Content-Type") &&
     countScriptTags text ≥ 1 && text.length < 2000)

/-- Amended classifier predicate: as `detectSpaSpec` but with the
case-sensitive lookup of the exact dict key `"content-type"` that the
code performs. -/
def detectSpaAmended (text : List Nat) (headers : List (String × String)) : Bool :=
  appRootSearch text ||
  reactDataSearch text ||
  (countScriptTags text ≥ 3 && text.length < 8000) ||
  (strIn "text/html" (headersGet headers "content-type") &&
     countScriptTags text ≥ 1 && text.length < 2000)

/-! ## Error classification and backoff (fetcher.py lines 81-136) -/

/-- Exception kinds raised along the fetch path.  `clientResponse` carries
the optional `status` attribute of `aiohttp.ClientResponseError`;
`valueError` is the `ValueError("Body too large")` of the size cap. -/
inductive ExcKind
  | clientResponse (status : Option Nat)
  | connector
  | serverDisconnected
  | valueError (msg : String)
deriving DecidableEq, Repr

/-- Direct embedding of `is_transient_fetch_exception(exc)` (fetcher.py
lines 118-136): `ClientResponseError` is transient iff status is missing,
≥500 or =429; connector/server-disconnect errors are transient; any other
(unknown) exception is treated as transient. -/
def is_transient_fetch_exception : ExcKind → Bool
  | .clientResponse none => true
  | .clientResponse (some st) => if 500 ≤ st then true else if st == 429 then true else false
  | .connector => true
  | .serverDisconnected => true
  | .valueError _ => true

/-- Direct embedding of `backoff_delay(attempt, base, cap)` (fetcher.py
lines 81-85) over rationals: optional arguments default to the settings
defaults `base_backoff_s = 1.0`, `cap_backoff_s = 30.0`, then the delay is
`min(base * 2**attempt, cap)`. -/
def backoff_delay (attempt : Nat) (base : Option ℚ) (cap : Option ℚ) : ℚ :=
  let b := base.getD 1
  let c := cap.getD 30
  min (b * 2 ^ attempt) c

/-! ## Admission governor (fetcher.py lines 21-58)

`acquire_domain_slot` looks the domain up in the module map
`domain_locks`; on a miss it evaluates `asyncio.semaphore(...)`
(fetcher.py line 36).  The `asyncio` module exposes `Semaphore` but no
lowercase `semaphore` attribute, so that attribute access raises
`AttributeError` before anything is stored in `domain_locks`. -/

/-- Attribute names the `asyncio` module exposes for semaphore
construction (`asyncio.Semaphore`; there is no lowercase
`asyncio.semaphore`). -/
def asyncioSemaphoreAttrs : List String := ["Semaphore", "BoundedSemaphore"]

/-- Result of one `acquire_domain_slot` call: either the acquired slot
(after the politeness sleep) or a raised exception. -/
inductive AcquireResult
  | ok
  | attributeError (detail : String)
deriving DecidableEq, Repr

/-- Direct embedding of `polite_wait(domain)` (fetcher.py lines 25-31):
the amount slept, `max(per_domain_delay_s - (now - last), 0)` where a
never-seen domain has `last = 0.0`. -/
def polite_wait (perDomainDelay now : ℚ) (lastReq : Option ℚ) : ℚ :=
  let last := lastReq.getD 0
  let wait := perDomainDelay - (now - last)
  if wait > 0 then wait else 0

/-- Direct embedding of `acquire_domain_slot(domain)` (fetcher.py lines
33-41) with the per-domain semaphore map abstracted to the list of
domains that currently hold one.  On a known domain both semaphore
acquisitions and the politeness wait proceed; on an unknown domain the
call evaluates the non-existent `asyncio.semaphore` attribute and
raises. -/
def acquire_domain_slot (domainLocks : List String) (domain : String) : AcquireResult :=
  if domainLocks.contains domain then .ok
  else if asyncioSemaphoreAttrs.contains "semaphore" then .ok
  else .attributeError "module asyncio has no attribute semaphore"

/-! ## DB upsert (db.py lines 109-156) and its retry wrapper
(fetcher.py lines 194-203) -/

/-- Arguments of `upsert_metadata` as called by the fetcher (db.py lines
109-122); the TTL timestamp is kept opaque as a string. -/
structure MetadataArgs where
  url : String
  urlHash : String
  domain : String
  r2KeyRaw : Option String
  r2KeyRendered : Option String
  r2SnapshotKey : Option String
  r2Bucket : Option String
  r2Url : Option String
  contentHash : Option String
  httpStatus : Option Nat
  headers : List (String × String)
  ttlExpireAt : String
deriving DecidableEq, Repr

/-- Row values actually bound to the placeholders `$1..$12` of
`UPSERT_METADATA_SQL` when `upsert_metadata` executes the statement
(db.py lines 141-152). -/
structure RowSent where
  url : String
  urlHash : String
  domain : String
  r2KeyRaw : Option String
  r2KeyRendered : Option String
  r2SnapshotKey : Option String
  r2Bucket : Option String
  r2Url : Option String
  contentHash : Option String
  httpStatus : Option Nat
  responseHeaders : List (String × String)
  ttlExpireAt : String
deriving DecidableEq, Repr

/-- Row construction of `upsert_metadata`: db.py lines 141-145 (and the
fallback lines 148-152) bind `url, url_hash, domain, r2_key_raw, None,
None, r2_bucket, r2_url, content_hash, http_status, response_headers,
ttl_expire_at` — the literals `None, None` stand where the parameters
`r2_key_rendered` and `r2_snapshot_key` were declared. -/
def upsertRowSent (a : MetadataArgs) : RowSent :=
  { url := a.url
    urlHash := a.urlHash
    domain := a.domain
    r2KeyRaw := a.r2KeyRaw
    r2KeyRendered := none
    r2SnapshotKey := none
    r2Bucket := a.r2Bucket
    r2Url := a.r2Url
    contentHash := a.contentHash
    httpStatus := a.httpStatus
    responseHeaders := a.headers
    ttlExpireAt := a.ttlExpireAt }

/-- Direct embedding of `upsert_metadata` (db.py lines 109-156): when the
pool is not initialized it logs and returns `None` (db.py lines 129-131)
before touching the pool.  Otherwise it enters
`async with db_pool.acquire() as conn:` (db.py line 136) — a step outside
the `try`, so a failure acquiring a connection propagates to the caller —
and only inside the acquired connection does the `try` begin (db.py line
137): a raising statement execution is caught and swallowed to `None`
(db.py lines 154-156).  `acquire` models the `db_pool.acquire()` round
trip; `db` models the statement execution on the acquired connection. -/
def upsert_metadata (poolInitialized : Bool) (a : MetadataArgs)
    (acquire : Except String Unit)
    (db : RowSent → Except String (Option String)) : Except String (Option String) :=
  if !poolInitialized then .ok none
  else
    match acquire with
    | .error e => .error e
    | .ok _ =>
      match db (upsertRowSent a) with
      | .ok recId => .ok recId
      | .error _ => .ok none

/-- One behaviour of the upsert callback inside `db_upsert_with_retries`:
either it raises or it returns an optional document id. -/
inductive UpsertStep
  | throw
  | ret (r : Option String)
deriving DecidableEq, Repr

/-- Observable outcome of `db_upsert_with_retries`: the returned value (or
the re-raised final exception, `.error`), the number of callback calls,
and the number of backoff sleeps performed. -/
structure RetryOut where
  result : Except Unit (Option String)
  calls : Nat
  sleeps : Nat
deriving Repr

/-- Loop of `db_upsert_with_retries` (fetcher.py lines 194-203): iterate
`attempt` over `range(tries)`; a normal return exits immediately; an
exception re-raises when `attempt + 1 >= tries` and otherwise sleeps a
backoff and continues.  Fuel is the number of remaining iterations. -/
def dbRetryGo (steps : Nat → UpsertStep) (tries : Nat) : Nat → Nat → RetryOut
  | 0, _ => { result := .ok none, calls := 0, sleeps := 0 }
  | fuel + 1, idx =>
    match steps idx with
    | .ret r => { result := .ok r, calls := 1, sleeps := 0 }
    | .throw =>
      if idx + 1 ≥ tries then { result := .error (), calls := 1, sleeps := 0 }
      else
        let rest := dbRetryGo steps tries fuel (idx + 1)
        { result := rest.result, calls := rest.calls + 1, sleeps := rest.sleeps + 1 }

/-- Direct embedding of `db_upsert_with_retries(db_upsert_cb, ...)` with
the callback behaviour per attempt given by `steps`; `tries` is
`settings.db_retries` (default 3).  An exhausted `range` (only possible
for `tries = 0`) falls off the function and returns `None`. -/
def db_upsert_with_retries (tries : Nat) (steps : Nat → UpsertStep) : RetryOut :=
  dbRetryGo steps tries tries 0

/-- Behaviour of one `upsert_metadata` call as seen by a
`db_upsert_with_retries` attempt: a propagated exception is a `.throw`
step, a normal return a `.ret` step. -/
def upsertStepOf (poolInitialized : Bool) (a : MetadataArgs)
    (acquire : Except String Unit)
    (db : RowSent → Except String (Option String)) : UpsertStep :=
  match upsert_metadata poolInitialized a acquire db with
  | .ok r => UpsertStep.ret r
  | .error _ => UpsertStep.throw

/-! ## Render-path dedupe (playwright_render.py lines 301-320) -/

/-- Recorded hash of the stored object at the target key:
`meta.get("sha256") if meta else None`, where `meta` is the object's
user-metadata dict or `None` when `head_object` failed (object absent).
A falsy empty dict also yields `None`, which coincides with lookup on an
empty association list. -/
def storedObjectSha (meta : Option (List (String × String))) : Option String :=
  match meta with
  | none => none
  | some m =>
    match m.find? (fun kv => kv.1 == "sha256") with
    | some kv => some kv.2
    | none => none

/-- Upload decision of `render_page_and_upload` (playwright_render.py
lines 311-320): skip the upload exactly when `old_sha == content_hash`;
otherwise gzip-compress and upload.  Returns `true` when the upload is
performed. -/
def renderUploadPerformed (meta : Option (List (String × String)))
    (contentHash : String) : Bool :=
  match storedObjectSha meta with
  | some oldSha => !(oldSha == contentHash)
  | none => true

/-! ## Input handler (handlers.py lines 37-101)

On a parse failure the handler builds `dlq_payload` (with reason
`parse_error` and the raw value) and then evaluates
`json.sumps(dlq_payload).ecnode("utf-8")` (handlers.py line 63).  The
`json` module has no attribute `sumps`, so the expression raises
`AttributeError`, which the enclosing `except Exception` (line 64) logs
and swallows.  Nothing is sent. -/

/-- Attribute names the `json` module exposes for serialisation
(`json.dumps`; there is no `json.sumps`). -/
def jsonModuleAttrs : List String := ["dumps", "dump", "loads", "load"]

/-- Externally visible effects of `handle_record`. -/
inductive HandlerEff
  | dlqSend (reason : String)
  | fetchCall (url : String)
deriving DecidableEq, Repr

/-- Parse result of `_parse_input_message`: a malformed record (invalid
JSON or a missing/invalid `link`) raises; otherwise it yields the event's
link and correlation id. -/
inductive ParsedInput
  | malformed
  | ok (link : String) (correlationId : String)
deriving DecidableEq, Repr

/-- Effect trace of `handle_record(record, session)` (handlers.py lines
37-101) up to the dispatch into `fetch_and_store`: a malformed record
enters the parse-error branch, where the DLQ send raises on the
non-existent `json.sumps` and is swallowed; a well-formed record proceeds
to call the fetcher (whose own effects are modelled separately). -/
def handle_record (inp : ParsedInput) (producerPresent : Bool) : List HandlerEff :=
  match inp with
  | .malformed =>
    if producerPresent then
      if jsonModuleAttrs.contains "sumps" then [.dlqSend "parse_error"] else []
    else []
  | .ok link _ => [.fetchCall link]

/-! ## Fetch-and-store pipeline (fetcher.py lines 240-596)

Control-flow facts of the retry loop (`for attempt in range(fetch_retries)`,
lines 275-586) that the model makes explicit:

* The loop body is the `try` (lines 276-439), its `except` handler (lines
  440-487), the `else` clause at line 488 (attached to the `try`, not to
  the `for`), and the trailing block at lines 502-586 (key computation,
  upload retry loop, DB upsert, completion-event emit) — all indented
  inside the `for` body.
* The `try` block always leaves via `return` (SPA branch, lines 338, 372,
  391), via `raise` into the handler, or via `break` (line 439, the static
  success path).  Leaving by `break` exits the whole `for` statement, so
  it skips both the `try`-`else` clause and the trailing block at lines
  502-586: a successful static fetch performs no upload, no DB upsert and
  emits no completion event.
* The handler either `return`s (permanent error, line 470; exhausted
  retries, line 485) or finishes with the backoff sleep (line 487), after
  which control falls through to the trailing block within the same
  iteration.  There the upload loop either exhausts and `return`s (line
  532) or succeeds and proceeds to the DB upsert — whose argument list
  (line 550) reads `content_hash`, a name assigned only at line 437
  immediately before the `break`, hence unbound whenever the trailing
  block runs; the resulting `NameError` is caught at line 555 and the
  function `return`s after a `db_upsert_after_upload_failed` DLQ message.
* Consequently every path through the loop body ends in `break` or
  `return`: the loop never runs a second iteration, and the model is the
  body at `attempt = 0`. -/

/-- Configuration knobs read from `settings` inside `fetch_and_store`. -/
structure FetchCfg where
  maxBytes : Nat
  fetchRetries : Nat
  prefetchSize : Nat
  uploadRetries : Nat
  dbRetries : Nat
  useStaging : Bool
  stagingPrefix : String

/-- Network behaviour of one `session.get` attempt: the connection fails,
or a response arrives with a status, a header dict, and the body as the
chunk sequence that `resp.content.iter_chunked(64*1024)` yields. -/
inductive NetOutcome
  | connErr
  | resp (status : Nat) (headers : List (String × String)) (chunks : List (List Nat))

/-- Oracles for the external collaborators of one `fetch_and_store` run,
plus the per-run url hash and UTC date used to build storage keys. -/
structure FetchEnv where
  net : Nat → NetOutcome
  render : Option String
  upsertSteps : Nat → UpsertStep
  uploadOk : Nat → Bool
  urlHash : String
  year : Nat
  month : Nat
  day : Nat

/-- State of the scratch temp file across the run. -/
inductive TempState
  | noTemp
  | present
  | removed
deriving DecidableEq, Repr

/-- Externally visible effects of a `fetch_and_store` run. -/
inductive Eff
  | sleep
  | uploadCall (scratchFilePresent : Bool) (key : String)
  | upsertWrapperCall (raw rendered snap : Option String)
  | emitOut (docId : Option String)
  | dlq (reason : String)
deriving DecidableEq, Repr

/-- Total length in bytes of a chunk sequence. -/
def sumLen (chunks : List (List Nat)) : Nat :=
  (chunks.map List.length).sum

/-- Prefetch loop (fetcher.py lines 291-299): chunks are appended and the
running total compared against `prefetch_size`; the loop breaks once the
total reaches it.  Returns (prefetched chunks, remaining chunks); `acc`
is the running total before the current chunk. -/
def prefetchSplit (pSize : Nat) : List (List Nat) → Nat → List (List Nat) × List (List Nat)
  | [], _ => ([], [])
  | c :: cs, acc =>
    if pSize ≤ acc + c.length then ([c], cs)
    else
      let pr := prefetchSplit pSize cs (acc + c.length)
      (c :: pr.1, pr.2)

/-- Size-cap check of the streaming loop (fetcher.py lines 413-431): for
each remaining chunk the total is incremented and compared against
`max_bytes`; returns `true` when the loop aborts (temp file removed,
`ValueError("Body too large")` raised). -/
def streamAborts (maxBytes : Nat) : List (List Nat) → Nat → Bool
  | [], _ => false
  | c :: cs, tot =>
    if maxBytes < tot + c.length then true
    else streamAborts maxBytes cs (tot + c.length)

/-- Zero-padded decimal rendering, Python `f"{n:04d}"` / `f"{n:02d}"`. -/
def padNum (w n : Nat) : String :=
  let s := toString n
  String.mk (List.replicate (w - s.length) '0') ++ s

/-- Direct embedding of `s3_key_for_raw(url_hash)` (fetcher.py lines
76-78) with the UTC date passed explicitly. -/
def s3_key_for_raw (urlHash : String) (y m d : Nat) : String :=
  "raw/" ++ padNum 4 y ++ "/" ++ padNum 2 m ++ "/" ++ padNum 2 d ++
    "/sha256-" ++ urlHash ++ ".html.gz"

/-- Rendered-content key built inline at fetcher.py line 317. -/
def renderedKeyFor (urlHash : String) (y m d : Nat) : String :=
  "rendered/" ++ padNum 4 y ++ "/" ++ padNum 2 m ++ "/" ++ padNum 2 d ++
    "/sha256-" ++ urlHash ++ ".rendered.html.gz"

/-- Outcome of one iteration of the fetch retry loop's `try` block. -/
inductive AttemptOutcome
  | success (hashedBytes : List Nat)
  | returned
  | exc (e : ExcKind)
deriving DecidableEq, Repr

/-- Effects, temp-file state and outcome of one `try`-block execution. -/
structure AttemptRes where
  effs : List Eff
  temp : TempState
  outcome : AttemptOutcome
deriving DecidableEq, Repr

/-- One execution of the `try` block (fetcher.py lines 276-439) at attempt
`idx` with incoming temp-file state `tempIn`:
status guard (lines 286-288), prefetch (291-301), SPA dispatch (304-391),
or the static streaming path (393-439).  On the static path the sha is fed
exactly the prefetched chunks followed by the streamed remainder. -/
def runAttempt (cfg : FetchCfg) (env : FetchEnv) (idx : Nat) (tempIn : TempState) : AttemptRes :=
  match env.net idx with
  | .connErr => { effs := [], temp := tempIn, outcome := .exc .connector }
  | .resp status headers chunks =>
    if 400 ≤ status && status < 500 && !(status == 429) then
      { effs := [], temp := tempIn, outcome := .exc (.clientResponse (some status)) }
    else
      let split := prefetchSplit cfg.prefetchSize chunks 0
      if detect_spa_bytes split.1.flatten headers then
        match env.render with
        | none =>
          { effs := [.dlq "playwright_render_failed"], temp := tempIn, outcome := .returned }
        | some _ =>
          let rkey := renderedKeyFor env.urlHash env.year env.month env.day
          let u := db_upsert_with_retries cfg.dbRetries env.upsertSteps
          { effs :=
              .upsertWrapperCall none (some rkey) none ::
                (List.replicate u.sleeps Eff.sleep ++
                  (match u.result with
                   | .error _ => [.dlq "db_upsert_after_upload_failed"]
                   | .ok docId => [.emitOut docId])),
            temp := tempIn, outcome := .returned }
      else
        if streamAborts cfg.maxBytes split.2 (sumLen split.1) then
          { effs := [], temp := .removed, outcome := .exc (.valueError "Body too large") }
        else
          { effs := [], temp := .present, outcome := .success (split.1.flatten ++ split.2.flatten) }

/-- Upload retry loop of the trailing block (fetcher.py lines 511-533)
followed by the DB-upsert `try` (lines 540-571): an upload succeeds only
when the scratch file still exists and the storage oracle accepts; after
a successful upload the upsert argument list raises `NameError` on the
unbound `content_hash` (see the section comment), which is caught and
dead-lettered.  Fuel is the number of remaining upload attempts. -/
def uploadTailGo (cfg : FetchCfg) (env : FetchEnv) (key : String) (temp : TempState) :
    Nat → Nat → List Eff
  | 0, _ => []
  | fuel + 1, idx =>
    let filePresent := temp == TempState.present
    if filePresent && env.uploadOk idx then
      [.uploadCall filePresent key, .dlq "db_upsert_after_upload_failed"]
    else if idx + 1 ≥ max 1 cfg.uploadRetries then
      [.uploadCall filePresent key, .dlq "r2_upload_error"]
    else
      .uploadCall filePresent key :: .sleep :: uploadTailGo cfg env key temp fuel (idx + 1)

/-- Trailing block of the loop body (fetcher.py lines 502-586), reached
only by falling out of the `except` handler after a backoff sleep; always
returns. -/
def fetchTail (cfg : FetchCfg) (env : FetchEnv) (temp : TempState) : List Eff :=
  let dateKey := s3_key_for_raw env.urlHash env.year env.month env.day
  let key := if cfg.useStaging then cfg.stagingPrefix ++ "/" ++ dateKey else dateKey
  uploadTailGo cfg env key temp (max 1 cfg.uploadRetries) 0

/-- Effect trace of one `fetch_and_store` run from the top of the retry
loop (fetcher.py line 275) to the function's return, given the
control-flow analysis in the section comment: the body runs once at
`attempt = 0`; `fetch_retries` is `max(1, settings.fetch_retries)`
(line 267).  The final `finally` block (temp cleanup and slot release,
lines 588-596) produces no modelled effect. -/
def runFetchStore (cfg : FetchCfg) (env : FetchEnv) : List Eff :=
  let ar := runAttempt cfg env 0 .noTemp
  match ar.outcome with
  | .success _ => ar.effs
  | .returned => ar.effs
  | .exc e =>
    ar.effs ++
      (if !is_transient_fetch_exception e then [.dlq "fetch_permanent"]
       else if max 1 cfg.fetchRetries ≤ 1 then [.dlq "fetch_error"]
       else .sleep :: fetchTail cfg env ar.temp)

/-! ## Concrete instances used by closed theorems and witnesses -/

/-- Production-default configuration: `max_content_length_mb = 8`,
`fetch_retries` default 2, `prefetch_bytes` default 16 KiB,
`upload_retries` default 2, `db_retries` default 3, no staging prefix. -/
def cfgDefault : FetchCfg :=
  { maxBytes := 8 * 1024 * 1024
    fetchRetries := 2
    prefetchSize := 16 * 1024
    uploadRetries := 2
    dbRetries := 3
    useStaging := false
    stagingPrefix := "staging" }

/-- Body of end-to-end scenario A: a small static HTML page with no
script tags. -/
def staticBody : List Nat :=
  bytesOfAscii "<html><head><title>t</title></head><body><p>hello world</p></body></html>"

/-- Environment of scenario A: one HTTP 200 `text/html` response carrying
`staticBody`, a healthy storage oracle and a healthy database oracle. -/
def envStatic : FetchEnv :=
  { net := fun _ => .resp 200 [("Content-Type", "text/html")] [staticBody]
    render := none
    upsertSteps := fun _ => .ret (some "doc-1")
    uploadOk := fun _ => true
    urlHash := "abc"
    year := 2025
    month := 10
    day := 12 }

/-- Environment of scenario D: every attempt yields an HTTP 404. -/
def env404 : FetchEnv :=
  { net := fun _ => .resp 404 [] []
    render := none
    upsertSteps := fun _ => .ret none
    uploadOk := fun _ => false
    urlHash := "h404"
    year := 2025
    month := 10
    day := 12 }

/-- Small configuration exercising the size cap: prefetch 1 byte, chunk
cap 2 bytes, `maxBytes` 3. -/
def cfgSmallCap : FetchCfg :=
  { maxBytes := 3
    fetchRetries := 2
    prefetchSize := 1
    uploadRetries := 2
    dbRetries := 3
    useStaging := false
    stagingPrefix := "" }

/-- Environment whose single response streams 4 bytes in two chunks,
exceeding `cfgSmallCap.maxBytes = 3`. -/
def envOversize : FetchEnv :=
  { net := fun _ => .resp 200 [] [[1, 2], [3, 4]]
    render := none
    upsertSteps := fun _ => .ret none
    uploadOk := fun _ => false
    urlHash := "hbig"
    year := 2025
    month := 10
    day := 12 }

/-- Byte prefix of the C4 counterexample: one script tag, 32 bytes, no
SPA root marker, no hydration marker. -/
def ctCexText : List Nat :=
  bytesOfAscii "<p>hi</p><script src=x></script>"

/-- Header map of the C4 counterexample: the Content-Type header under
its canonical capitalised name. -/
def ctCexHeaders : List (String × String) :=
  [("Content-Type", "text/html")]

/-- Example metadata arguments of a render-path upsert, carrying a
rendered storage key and a snapshot key. -/
def renderUpsertArgs : MetadataArgs :=
  { url := "https://example.com/a"
    urlHash := "abc"
    domain := "example.com"
    r2KeyRaw := none
    r2KeyRendered := some "rendered/2025/10/12/sha256-abc.rendered.html.gz"
    r2SnapshotKey := some "snapshot/2025/10/12/sha256-abc.png"
    r2Bucket := some "bucket"
    r2Url := some "https://r2.example/bucket/k"
    contentHash := some "deadbeef"
    httpStatus := some 200
    headers := [("Content-Type", "text/html")]
    ttlExpireAt := "2025-11-11T00:00:00Z" }

/-- Database oracle that accepts the row and returns a record id. -/
def dbOracleOk : RowSent → Except String (Option String) :=
  fun _ => .ok (some "11111111-2222-3333-4444-555555555555")

/-! ## Helper lemmas -/

theorem sumLen_nil : sumLen [] = 0 := rfl

theorem sumLen_cons (c : List Nat) (cs : List (List Nat)) :
    sumLen (c :: cs) = c.length + sumLen cs := by
  simp [sumLen]

theorem sumLen_append (a b : List (List Nat)) :
    sumLen (a ++ b) = sumLen a + sumLen b := by
  simp [sumLen]

theorem prefetchSplit_append (p : Nat) (chunks : List (List Nat)) (acc : Nat) :
    (prefetchSplit p chunks acc).1 ++ (prefetchSplit p chunks acc).2 = chunks := by
  induction chunks generalizing acc with
  | nil => rfl
  | cons c cs ih =>
    unfold prefetchSplit
    by_cases h : p ≤ acc + c.length
    · simp [h]
    · simp [h, ih]

theorem prefetchSplit_sum_le (p cap : Nat) (chunks : List (List Nat)) (acc : Nat)
    (hcap : ∀ c ∈ chunks, c.length ≤ cap) (hacc : acc ≤ p) :
    acc + sumLen (prefetchSplit p chunks acc).1 ≤ p + cap := by
  induction chunks generalizing acc with
  | nil => simpa [prefetchSplit, sumLen_nil] using by omega
  | cons c cs ih =>
    have hc : c.length ≤ cap := hcap c (List.mem_cons_self c cs)
    unfold prefetchSplit
    by_cases h : p ≤ acc + c.length
    · rw [if_pos h]
      simp only [sumLen_cons, sumLen_nil]
      omega
    · rw [if_neg h]
      push_neg at h
      have hrec := ih (acc + c.length) (fun x hx => hcap x (List.mem_cons_of_mem c hx)) (by omega)
      simp only [sumLen_cons]
      omega

theorem streamAborts_of_overflow (maxB : Nat) (l : List (List Nat)) (tot : Nat)
    (h1 : tot ≤ maxB) (h2 : maxB < tot + sumLen l) :
    streamAborts maxB l tot = true := by
  induction l generalizing tot with
  | nil =>
    simp only [sumLen_nil, Nat.add_zero] at h2
    exact absurd h2 (by omega)
  | cons c cs ih =>
    unfold streamAborts
    by_cases h : maxB < tot + c.length
    · simp [h]
    · push_neg at h
      rw [sumLen_cons] at h2
      simp only [not_lt.mpr h, if_false]
      exact ih (tot + c.length) h (by omega)

/-! ## Claim theorems -/

/-- C7: on the render path, the upload is skipped exactly when the stored
object's recorded `sha256` metadata equals the newly computed content
hash; when the hashes differ or no stored object exists, the rendered
content is compressed and uploaded. -/
theorem render_dedupe_by_hash (meta : Option (List (String × String))) (contentHash : String) :
    renderUploadPerformed meta contentHash = false ↔
      storedObjectSha meta = some contentHash := by
  unfold renderUploadPerformed
  cases h : storedObjectSha meta with
  | none => simp
  | some oldSha => simp

/-- C8 (divergence): for every argument list, the row `upsert_metadata`
actually binds to the SQL placeholders carries `NULL` for
`r2_key_rendered` and `r2_snapshot_key`, regardless of the rendered and
snapshot keys the caller passed. -/
theorem upsert_drops_rendered_keys (a : MetadataArgs) :
    (upsertRowSent a).r2KeyRendered = none ∧ (upsertRowSent a).r2SnapshotKey = none :=
  ⟨rfl, rfl⟩

/-- C9 (counterexample): with positive base 2 and positive cap 1, the
delay of attempt 0 is the cap, not the base, refuting `delay(0) = base`
for all positive parameters. -/
theorem backoff_delay_zero_ne_base :
    (0 : ℚ) < 2 ∧ (0 : ℚ) < 1 ∧ backoff_delay 0 (some 2) (some 1) ≠ 2 := by
  refine ⟨by norm_num, by norm_num, ?_⟩
  simp only [backoff_delay, Option.getD_some, pow_zero, mul_one]
  norm_num

/-- C9 (amended): for every attempt `n` and positive base and cap,
`backoff_delay n = min (base * 2 ^ n) cap`; the delay sequence is
non-decreasing and never exceeds the cap, and the delay of attempt 0 is
`min base cap` (hence the base whenever the base does not exceed the
cap). -/
theorem backoff_delay_amended (n : Nat) (base cap : ℚ) (hb : 0 < base) (_hc : 0 < cap) :
    backoff_delay n (some base) (some cap) = min (base * 2 ^ n) cap ∧
    backoff_delay n (some base) (some cap) ≤ backoff_delay (n + 1) (some base) (some cap) ∧
    backoff_delay n (some base) (some cap) ≤ cap ∧
    backoff_delay 0 (some base) (some cap) = min base cap := by
  refine ⟨rfl, ?_, min_le_right _ _, by simp [backoff_delay]⟩
  unfold backoff_delay
  simp only [Option.getD_some]
  refine min_le_min ?_ le_rfl
  have h2 : (base * 2 ^ n) ≤ base * 2 ^ (n + 1) := by
    refine mul_le_mul_of_nonneg_left ?_ hb.le
    exact pow_le_pow_right₀ (by norm_num) (Nat.le_succ n)
  exact h2

/-- C9 (witness): the amended statement instantiated at attempt 1 with
the default base 1 and cap 30. -/
theorem backoff_delay_amended_witness :
    (0 : ℚ) < 1 ∧ (0 : ℚ) < 30 ∧
      (backoff_delay 1 (some 1) (some 30) = min ((1 : ℚ) * 2 ^ 1) 30 ∧
       backoff_delay 1 (some 1) (some 30) ≤ backoff_delay 2 (some 1) (some 30) ∧
       backoff_delay 1 (some 1) (some 30) ≤ 30 ∧
       backoff_delay 0 (some 1) (some 30) = min 1 30) :=
  ⟨by norm_num, by norm_num, backoff_delay_amended 1 1 30 (by norm_num) (by norm_num)⟩

/-- C10 (counterexample): a failing `db_pool.acquire()` — the one
database step outside the `try` (db.py line 136) — propagates out of
`upsert_metadata`; wrapped in `db_upsert_with_retries` with the default
three attempts it is retried with two backoff sleeps and finally
re-raised, reaching the caller's upsert-failure dead-letter branch.
This refutes the claim that `upsert_metadata` never propagates any
database error and that the wrapper performs no retries for them. -/
theorem upsert_acquire_failure_propagates_cex :
    upsert_metadata true renderUpsertArgs (.error "pool acquire failed") dbOracleOk =
      .error "pool acquire failed" ∧
    db_upsert_with_retries 3
        (fun _ => upsertStepOf true renderUpsertArgs (.error "pool acquire failed") dbOracleOk) =
      { result := .error (), calls := 3, sleeps := 2 } :=
  ⟨rfl, rfl⟩

/-- C10 (amended): `upsert_metadata` returns `None` instead of raising
when the pool is uninitialized or when the statement execution on the
acquired connection raises; only a failure of `db_pool.acquire()` itself
propagates.  Consequently, whenever the connection is acquired, the call
never raises, the surrounding retry wrapper returns on the first attempt
with no retries and no sleeps — so the caller's upsert-failure
dead-letter branch is unreachable for statement errors — and the
document id handed to the completion event may be `None`. -/
theorem upsert_swallows_statement_errors (tries : Nat) (pool : Bool) (a : MetadataArgs)
    (db : RowSent → Except String (Option String)) (msg : String) (h : 1 ≤ tries) :
    upsert_metadata pool a (.ok ()) (fun _ => .error msg) = .ok none ∧
    upsert_metadata false a (.error msg) db = .ok none ∧
    (∀ e, upsert_metadata pool a (.ok ()) db ≠ .error e) ∧
    (∀ r, upsert_metadata pool a (.ok ()) db = .ok r →
      db_upsert_with_retries tries (fun _ => upsertStepOf pool a (.ok ()) db) =
        { result := .ok r, calls := 1, sleeps := 0 }) := by
  refine ⟨?_, rfl, ?_, ?_⟩
  · cases pool <;> simp [upsert_metadata]
  · intro e
    cases pool with
    | false => simp [upsert_metadata]
    | true =>
      cases hdb : db (upsertRowSent a) <;> simp [upsert_metadata, hdb]
  · intro r hr
    cases tries with
    | zero => omega
    | succ t => simp [db_upsert_with_retries, dbRetryGo, upsertStepOf, hr]

/-- C10 (witness): the amended statement instantiated with the default
three retries, an initialized pool, a successfully acquired connection
and a healthy database oracle. -/
theorem upsert_swallows_statement_errors_witness :
    1 ≤ 3 ∧
      (upsert_metadata true renderUpsertArgs (.ok ()) (fun _ => .error "connection reset") = .ok none ∧
       upsert_metadata false renderUpsertArgs (.error "connection reset") dbOracleOk = .ok none ∧
       (∀ e, upsert_metadata true renderUpsertArgs (.ok ()) dbOracleOk ≠ .error e) ∧
       (∀ r, upsert_metadata true renderUpsertArgs (.ok ()) dbOracleOk = .ok r →
         db_upsert_with_retries 3 (fun _ => upsertStepOf true renderUpsertArgs (.ok ()) dbOracleOk) =
           { result := .ok r, calls := 1, sleeps := 0 })) :=
  ⟨by decide,
    upsert_swallows_statement_errors 3 true renderUpsertArgs dbOracleOk "connection reset" (by decide)⟩

/-- C2 (divergence): on first sight of a new domain — any domain absent
from `domain_locks`, which is every domain, since the map is only ever
populated after this very line — `acquire_domain_slot` evaluates the
non-existent `asyncio.semaphore` attribute and raises `AttributeError`
instead of acquiring and succeeding. -/
theorem acquire_new_domain_raises :
    acquire_domain_slot [] "example.com" =
      .attributeError "module asyncio has no attribute semaphore" ∧
    asyncioSemaphoreAttrs.contains "semaphore" = false := by
  constructor
  · rfl
  · decide

/-- C6 (divergence): for a malformed input record with the producer
initialized, `handle_record` emits nothing at all — the parse-error DLQ
send evaluates the non-existent `json.sumps` attribute, raises
`AttributeError`, and the nested handler swallows it — and in particular
performs no fetch and acquires no admission slot. -/
theorem parse_error_emits_nothing :
    handle_record .malformed true = [] ∧
    jsonModuleAttrs.contains "sumps" = false := by
  constructor
  · rfl
  · decide

/-- C4 (counterexample): a 32-byte prefix with one script tag and the
Content-Type header stored under its canonical capitalised key — the
code's case-sensitive lookup of `"content-type"` misses it, so
`detect_spa_bytes` answers static while the spec's reading of rule 4
(Content-Type contains `text/html`, ≥1 script tag, prefix < 2 KB)
answers rendered. -/
theorem detect_spa_content_type_case_cex :
    detect_spa_bytes ctCexText ctCexHeaders = false ∧
    detectSpaSpec ctCexText ctCexHeaders = true := by
  constructor
  · rfl
  · rfl

/-- C4 (amended): for every byte prefix and header map, the classifier
returns rendered if and only if the prefix contains an SPA root-element
marker, or a client-framework hydration marker, or has at least 3 script
tags with the prefix shorter than 8000 bytes, or the header map's value
at the exact key `"content-type"` contains `text/html` with at least one
script tag and a prefix shorter than 2000 bytes; otherwise static. -/
theorem detect_spa_bytes_amended_iff (text : List Nat) (headers : List (String × String)) :
    detect_spa_bytes text headers = detectSpaAmended text headers := by
  unfold detect_spa_bytes detectSpaAmended
  cases ha : appRootSearch text <;>
    cases hr : reactDataSearch text <;>
      cases h3 : decide (countScriptTags text ≥ 3) <;>
        cases h8 : decide (text.length < 8000) <;>
          cases hct : strIn "text/html" (headersGet headers "content-type") <;>
            cases h1 : decide (countScriptTags text ≥ 1) <;>
              cases h2 : decide (text.length < 2000) <;>
                simp_all

/-- C5: for every run whose first response status is 4xx other than 429,
the status guard raises `ClientResponseError`, the error is classified
permanent, and the whole run's effect trace is a single dead-letter event
with reason `fetch_permanent` — no backoff sleep, no further fetch
attempt, no upload, no upsert, no completion event. -/
theorem permanent_4xx_single_dead_letter (cfg : FetchCfg) (env : FetchEnv)
    (st : Nat) (hs : List (String × String)) (ch : List (List Nat))
    (hnet : env.net 0 = .resp st hs ch)
    (h4 : 400 ≤ st) (h5 : st < 500) (h29 : st ≠ 429) :
    runFetchStore cfg env = [.dlq "fetch_permanent"] := by
  have hlt : ¬ 500 ≤ st := by omega
  have htrans : is_transient_fetch_exception (.clientResponse (some st)) = false := by
    simp [is_transient_fetch_exception, hlt, h29]
  have hA : runAttempt cfg env 0 .noTemp =
      { effs := [], temp := .noTemp, outcome := .exc (.clientResponse (some st)) } := by
    simp [runAttempt, hnet, h4, h5, h29]
  simp [runFetchStore, hA, htrans]

/-- C5 (witness): scenario D, a 404 response under the default
configuration. -/
theorem permanent_4xx_single_dead_letter_witness :
    env404.net 0 = .resp 404 [] [] ∧ 400 ≤ 404 ∧ 404 < 500 ∧ 404 ≠ 429 ∧
      runFetchStore cfgDefault env404 = [.dlq "fetch_permanent"] :=
  ⟨rfl, by decide, by decide, by decide,
    permanent_4xx_single_dead_letter cfgDefault env404 404 [] [] rfl
      (by decide) (by decide) (by decide)⟩

/-- C3 (counterexample): a concrete streamed body exceeding `maxBytes`
aborts the attempt with the size-limit `ValueError` and deletes the
scratch file, but `is_transient_fetch_exception` classifies that error
transient — refuting the claim that the size-limit error is classified
permanent. -/
theorem size_limit_classified_transient_cex :
    runAttempt cfgSmallCap envOversize 0 .noTemp =
      { effs := [], temp := .removed, outcome := .exc (.valueError "Body too large") } ∧
    is_transient_fetch_exception (.valueError "Body too large") = true :=
  ⟨rfl, rfl⟩

/-- C3 (amended): for every response streamed on the static path whose
cumulative byte count exceeds `maxBytes` (chunk sizes bounded so that the
prefetched prefix itself fits the cap, as `iter_chunked(64*1024)`
guarantees with the default settings), the attempt aborts with the
size-limit `ValueError`, the partial scratch file is deleted, and no
upload is called within that attempt; the size-limit error is classified
transient, not permanent, so the fetch layer treats it like any other
retryable error rather than dead-lettering it as permanent. -/
theorem size_cap_attempt_aborts (cfg : FetchCfg) (env : FetchEnv) (idx : Nat)
    (tempIn : TempState) (st : Nat) (hs : List (String × String))
    (chunks : List (List Nat)) (cap : Nat)
    (hnet : env.net idx = .resp st hs chunks)
    (hst : (400 ≤ st && st < 500 && !(st == 429)) = false)
    (hdet : detect_spa_bytes (prefetchSplit cfg.prefetchSize chunks 0).1.flatten hs = false)
    (hcap : ∀ c ∈ chunks, c.length ≤ cap)
    (hfit : cfg.prefetchSize + cap ≤ cfg.maxBytes)
    (hbig : cfg.maxBytes < sumLen chunks) :
    runAttempt cfg env idx tempIn =
      { effs := [], temp := .removed, outcome := .exc (.valueError "Body too large") } ∧
    is_transient_fetch_exception (.valueError "Body too large") = true := by
  refine ⟨?_, rfl⟩
  have hsum : sumLen (prefetchSplit cfg.prefetchSize chunks 0).1 ≤ cfg.maxBytes := by
    have h := prefetchSplit_sum_le cfg.prefetchSize cap chunks 0 hcap (Nat.zero_le _)
    omega
  have htot : cfg.maxBytes <
      sumLen (prefetchSplit cfg.prefetchSize chunks 0).1 +
        sumLen (prefetchSplit cfg.prefetchSize chunks 0).2 := by
    have h := sumLen_append (prefetchSplit cfg.prefetchSize chunks 0).1
      (prefetchSplit cfg.prefetchSize chunks 0).2
    rw [prefetchSplit_append] at h
    omega
  have habort : streamAborts cfg.maxBytes (prefetchSplit cfg.prefetchSize chunks 0).2
      (sumLen (prefetchSplit cfg.prefetchSize chunks 0).1) = true :=
    streamAborts_of_overflow _ _ _ hsum htot
  simp [runAttempt, hnet, hst, hdet, habort]

/-- C3 (witness): the amended statement instantiated on a 4-byte body in
two 2-byte chunks against a 3-byte cap with 1-byte prefetch. -/
theorem size_cap_attempt_aborts_witness :
    envOversize.net 0 = .resp 200 [] [[1, 2], [3, 4]] ∧
    (∀ c ∈ [[1, 2], [3, 4]], List.length c ≤ 2) ∧
    cfgSmallCap.prefetchSize + 2 ≤ cfgSmallCap.maxBytes ∧
    cfgSmallCap.maxBytes < sumLen [[1, 2], [3, 4]] ∧
    (runAttempt cfgSmallCap envOversize 0 .noTemp =
        { effs := [], temp := .removed, outcome := .exc (.valueError "Body too large") } ∧
      is_transient_fetch_exception (.valueError "Body too large") = true) :=
  ⟨rfl, by decide, by decide, by decide,
    size_cap_attempt_aborts cfgSmallCap envOversize 0 .noTemp 200 [] [[1, 2], [3, 4]] 2
      rfl (by decide) (by decide) (by decide) (by decide) (by decide)⟩

/-- C1 (divergence): end-to-end scenario A evaluated on the code — an
HTTP 200 `text/html` response with no script tags is classified static
and streamed to completion, but the run's externally visible effect trace
is empty: the success `break` exits the retry loop past the trailing
upload/upsert/emit block, so nothing is uploaded, no metadata is
upserted, and no completion event is published. -/
theorem static_success_run_emits_nothing :
    detect_spa_bytes staticBody [("Content-Type", "text/html")] = false ∧
    runFetchStore cfgDefault envStatic = [] :=
  ⟨rfl, rfl⟩

end Seya
